import Mathlib

/-!
Shallow embedding of the chat-session / response-visualization pipeline of
the summon-park-ch repository.

Sources embedded:
- `src/src/pages/journey-chat.tsx` — the `JourneyUI` component: the
  `callBackendAPI` function (lines 44-96), the `handleSubmit` handler
  (lines 98-105), and the per-message render branch (lines 172-189).
- `src/src/components/ui/DataVisualization.tsx` — the `DataVisualization`
  component actually imported by the page (the variant at lines 248-340,
  whose props type is `(string | number)[][] | undefined` and whose
  transform is `data.map(([name, value]) => ({name, value}))`).

Modelling decisions, each mirroring the JavaScript semantics:
- A table cell is `string | number`; embedded as the `Cell` sum.
- Array indexing `row[0]` / `row[1]` can yield `undefined` in JS; embedded
  as `List.get?`, so a point's name/value is an `Option Cell`.
- JS truthiness of an optional string (`if (data.nl_explanation)`) is
  true exactly for a present, non-empty string; embedded as `strTruthy`.
  Truthiness of `message.responseData?.query_results` is true exactly when
  the field is present (an empty array is truthy in JS).
- `Date.now()` readings are passed in explicitly as `Nat` clock values:
  each phase of the code that reads the clock takes the reading as an
  argument, so clock behaviour (including two reads in the same
  millisecond) is part of the input.
- The asynchronous `fetch` is split at its suspension point: `handleSubmit`
  covers the guard plus the synchronous prefix of `callBackendAPI`
  (set loading, append the user message, issue the request), and
  `callBackendAPIResolve` covers the continuation that runs when the fetch
  settles (append the system message, clear loading, clear the input).
  The outcome of the fetch is the `FetchOutcome` argument: `success data`
  for an ok response whose body parsed as `data`, `failure` for a non-ok
  status, a network rejection, or a JSON parse error (all of which reach
  the `catch` block).
- The React event loop is embedded as a trace of `Event`s folded over the
  component state: input edits, form submissions, and fetch settlements,
  in the order the single JS thread processes them.
-/

/-- A table cell as sent by the backend: `string | number`.
Numbers are embedded as `Int` (the repository only displays them). -/
inductive Cell where
  | num : Int → Cell
  | str : String → Cell
deriving DecidableEq, Repr

/-- `BackendResponse` interface (journey-chat.tsx lines 15-19):
`{ query_results?: (string|number)[][], nl_explanation?: string, error?: string }`. -/
structure BackendResponse where
  query_results : Option (List (List Cell))
  nl_explanation : Option String
  error : Option String
deriving DecidableEq, Repr

/-- Message roles: the `type: 'user' | 'system'` field of `ChatMessage`. -/
inductive Role where
  | user
  | system
deriving DecidableEq, Repr

/-- `ChatMessage` interface (journey-chat.tsx lines 7-12). -/
structure ChatMessage where
  id : Nat
  type : Role
  content : String
  responseData : Option BackendResponse
deriving DecidableEq, Repr

/-- JS truthiness of an optional string: present and non-empty. -/
def strTruthy : Option String → Bool
  | some s => !(s = "")
  | none => false

/-- JS `String.prototype.trim` (used at journey-chat.tsx lines 101 and
220): strip leading and trailing whitespace. Embedded structurally over
the character list so that concrete inputs evaluate. -/
def jsTrim (s : String) : String :=
  ⟨((s.data.dropWhile Char.isWhitespace).reverse.dropWhile
      Char.isWhitespace).reverse⟩

/-- The generic failure text appended in the `catch` block
(journey-chat.tsx line 88). -/
def errorText : String := "An error occurred. Please try again."

/-- How a `fetch` settles, as seen by the continuation of
`callBackendAPI`: `success data` for `response.ok` with parsed body
`data`; `failure` for a non-ok status, a rejected call, or a body that
fails to parse (each of which lands in the `catch` block). -/
inductive FetchOutcome where
  | success : BackendResponse → FetchOutcome
  | failure : FetchOutcome
deriving DecidableEq, Repr

/-- The component state of `JourneyUI` that the core pipeline touches
(journey-chat.tsx lines 23-28), plus the set of in-flight requests
(request id paired with the raw query string the fetch was issued with),
which in the source is implicit in the pending promises. -/
structure SessionState where
  userInput : String
  responseData : Option BackendResponse
  isLoading : Bool
  chatHistory : List ChatMessage
  pending : List (Nat × String)
deriving DecidableEq, Repr

/-- The initial state of `JourneyUI` (journey-chat.tsx lines 23-28). -/
def initialState : SessionState :=
  { userInput := "", responseData := none, isLoading := false,
    chatHistory := [], pending := [] }

/-- `handleSubmit` (journey-chat.tsx lines 99-105) together with the
synchronous prefix of `callBackendAPI` (lines 44-62): if the trimmed
input is empty nothing happens; otherwise loading is set, one user
message with the RAW input as content is appended (lines 48-53), and the
fetch is issued with the raw input (line 61) — recorded in `pending`
under the fresh request id `reqId`. `t` is the `Date.now()` reading at
line 49. -/
def handleSubmit (t reqId : Nat) (s : SessionState) : SessionState :=
  if jsTrim s.userInput = "" then s
  else
    { s with
      isLoading := true,
      chatHistory := s.chatHistory ++
        [{ id := t, type := Role.user, content := s.userInput,
           responseData := none }],
      pending := s.pending ++ [(reqId, s.userInput)] }

/-- The body of `callBackendAPI` after the fetch settles, without the
bookkeeping of `finally` (journey-chat.tsx lines 64-92). On success the
parsed data is stored and a system message is appended only when
`data.nl_explanation` is truthy, with id `Date.now() + 1` (line 74). On
failure a generic error message is appended with id `Date.now()`
(line 86) and `responseData` is set to a carried error. `t` is the
`Date.now()` reading at the settlement. -/
def resolveBody (t : Nat) (o : FetchOutcome) (s : SessionState) : SessionState :=
  match o with
  | FetchOutcome.success data =>
    let s1 := { s with responseData := some data }
    if strTruthy data.nl_explanation then
      { s1 with chatHistory := s1.chatHistory ++
          [{ id := t + 1, type := Role.system,
             content := data.nl_explanation.getD "",
             responseData := some data }] }
    else s1
  | FetchOutcome.failure =>
    { s with
      chatHistory := s.chatHistory ++
        [{ id := t, type := Role.system, content := errorText,
           responseData := none }],
      responseData := some { query_results := none, nl_explanation := none,
                             error := some errorText } }

/-- The full continuation of `callBackendAPI` for the in-flight request
`reqId` settling with outcome `o` at clock reading `t`: the try/catch body
(`resolveBody`), then `finally { setIsLoading(false) }` (lines 93-95),
then the `setUserInput("")` that follows the `await` in `handleSubmit`
(line 103). A settlement for a request id that is not in flight changes
nothing. -/
def callBackendAPIResolve (t reqId : Nat) (o : FetchOutcome)
    (s : SessionState) : SessionState :=
  if (s.pending.map Prod.fst).contains reqId then
    let s1 := resolveBody t o
      { s with pending := s.pending.filter (fun p => !(p.1 = reqId)) }
    { s1 with isLoading := false, userInput := "" }
  else s

/-- An event processed by the single UI thread: an input edit
(`onChange` at line 214), a form submission (`onSubmit` at line 200,
with its `Date.now()` reading and a fresh request id), or the settlement
of an in-flight fetch. -/
inductive Event where
  | setInput : String → Event
  | submit : Nat → Nat → Event
  | resolve : Nat → Nat → FetchOutcome → Event
deriving DecidableEq, Repr

/-- One step of the UI thread. -/
def step (e : Event) (s : SessionState) : SessionState :=
  match e with
  | Event.setInput v => { s with userInput := v }
  | Event.submit t reqId => handleSubmit t reqId s
  | Event.resolve t reqId o => callBackendAPIResolve t reqId o s

/-- Run a whole event trace from a starting state. -/
def runTrace (es : List Event) (s : SessionState) : SessionState :=
  es.foldl (fun s e => step e s) s

/-- The chart modes of `DataVisualization` (line 249):
`'bar' | 'pie' | 'line'`, initial value `'bar'`. -/
inductive ChartMode where
  | bar
  | pie
  | line
deriving DecidableEq, Repr

/-- The recharts-ready rows built by `DataVisualization` (lines 255-258):
`data.map(([name, value]) => ({name, value}))`. Destructuring
`[name, value]` reads indices 0 and 1, which may be `undefined`. -/
def transformedData (data : List (List Cell)) :
    List (Option Cell × Option Cell) :=
  data.map (fun row => (row.get? 0, row.get? 1))

/-- What `DataVisualization` renders: the selected mode and the
transformed points it feeds to the chart (all three chart branches,
lines 266-312, draw exactly `transformedData` under the mode). -/
structure ChartView where
  mode : ChartMode
  points : List (Option Cell × Option Cell)
deriving DecidableEq, Repr

/-- The render function of `DataVisualization` (lines 248-338): with an
`undefined` or empty dataset it returns `null` (line 252); otherwise it
renders the transformed points under the currently selected mode. -/
def DataVisualization (data : Option (List (List Cell)))
    (chartType : ChartMode) : Option ChartView :=
  match data with
  | none => none
  | some d => if d.length = 0 then none
              else some { mode := chartType, points := transformedData d }

/-- The internal state of one mounted `DataVisualization` widget: just
the selected chart type, initially `'bar'` (line 249). -/
structure DVState where
  chartType : ChartMode
deriving DecidableEq, Repr

/-- The initial widget state: `useState('bar')` (line 249). -/
def dvInit : DVState := { chartType := ChartMode.bar }

/-- The `onClick` handler of a mode button (line 324):
`setChartType(type)`. -/
def setChartType (m : ChartMode) (_ : DVState) : DVState :=
  { chartType := m }

/-- Apply a sequence of mode-button clicks to a widget state. -/
def applySelections (s : DVState) (clicks : List ChartMode) : DVState :=
  clicks.foldl (fun s m => setChartType m s) s

/-- The visual a system message contributes below its bubble. -/
inductive Visual where
  | scalar : Option Cell → Option Cell → Visual
  | chart : ChartView → Visual
deriving DecidableEq, Repr

/-- The dispatch on raw `query_results` (journey-chat.tsx lines 174-187):
exactly one row renders the scalar text block from `[0][0]` and `[0][1]`
(lines 178-179); anything else is handed to `DataVisualization`
(lines 184-186), which renders nothing when the rows are empty. The
widget mounts with mode `'bar'`. -/
def renderQueryResults (qr : List (List Cell)) : Option Visual :=
  if qr.length = 1 then
    some (Visual.scalar ((qr.headD []).get? 0) ((qr.headD []).get? 1))
  else (DataVisualization (some qr) ChartMode.bar).map Visual.chart

/-- The per-message render branch (journey-chat.tsx lines 172-189): a
visual is shown only for a system message whose `responseData` is present
and carries a `query_results` field (`message.responseData?.query_results`
is truthy — note an empty array IS truthy and enters the branch). -/
def messageVisual (m : ChatMessage) : Option Visual :=
  match m.type, m.responseData with
  | Role.system, some d =>
    match d.query_results with
    | some qr => renderQueryResults qr
    | none => none
  | _, _ => none

/-- Count of messages of a given role in a log. -/
def countRole (r : Role) (l : List ChatMessage) : Nat :=
  (l.filter (fun m => m.type == r)).length

/-- Whether a list of ids is strictly increasing in order. -/
def strictlyIncreasing : List Nat → Bool
  | a :: b :: rest => a < b && strictlyIncreasing (b :: rest)
  | _ => true

/-- A concrete mid-flight state: one accepted submission (request id 1,
query `"q"`) awaiting its response. -/
def sampleBusy : SessionState :=
  { userInput := "q", responseData := none, isLoading := true,
    chatHistory := [ChatMessage.mk 2 Role.user "q" none],
    pending := [(1, "q")] }

/-- A success-status response body that carries both an explanation and a
non-empty semantic `error` field. -/
def dataWithError : BackendResponse :=
  { query_results := some [[Cell.num 1, Cell.num 2]],
    nl_explanation := some "exp", error := some "boom" }

/-- A trace in which the backend answers with an ok status and a parsed
body that has `query_results` but no `nl_explanation`. -/
def traceNoExplanation : List Event :=
  [Event.setInput "q", Event.submit 0 1,
   Event.resolve 5 1 (FetchOutcome.success
     { query_results := some [[Cell.num 7, Cell.num 8]],
       nl_explanation := none, error := none })]

/-- A trace in which the backend answers ok with `dataWithError`. -/
def traceErrorField : List Event :=
  [Event.setInput "q", Event.submit 0 1,
   Event.resolve 5 1 (FetchOutcome.success dataWithError)]

/-- A trace with two submissions where the second is made while the first
is still pending, and the second fetch settles before the first (the JS
event loop imposes no order on two in-flight promises). -/
def traceInterleaved : List Event :=
  [Event.setInput "a", Event.submit 0 1,
   Event.setInput "b", Event.submit 1 2,
   Event.resolve 2 2 (FetchOutcome.success
     { query_results := none, nl_explanation := some "expB", error := none }),
   Event.resolve 3 1 (FetchOutcome.success
     { query_results := none, nl_explanation := some "expA", error := none })]

/-- A trace in which every `Date.now()` reading falls in the same
millisecond (all readings are 5): submit, success-settle with an
explanation, submit again, failure-settle. -/
def traceSameMillisecond : List Event :=
  [Event.setInput "a", Event.submit 5 1,
   Event.resolve 5 1 (FetchOutcome.success
     { query_results := none, nl_explanation := some "exp", error := none }),
   Event.setInput "b", Event.submit 5 2,
   Event.resolve 5 2 FetchOutcome.failure]

/-- A trace submitting an input with surrounding whitespace. -/
def traceUntrimmed : List Event := [Event.setInput " hi ", Event.submit 0 1]

/-! ## Helper lemmas -/

theorem countRole_append (r : Role) (l1 l2 : List ChatMessage) :
    countRole r (l1 ++ l2) = countRole r l1 + countRole r l2 := by
  simp [countRole, List.filter_append]

/-! ## Claims -/

/-- C3: dispatch on the raw rows — exactly one row yields the scalar built
from column 0 (label) and column 1 (value) of that row; more than one row
yields a chart whose points pair column 0 with column 1 per row, with as
many points as rows and row order preserved (the points ARE the row map);
zero rows yield no visual at all (neither a chart nor a scalar). -/
theorem transform_dispatch (qr : List (List Cell)) :
    (qr = [] → renderQueryResults qr = none)
    ∧ (∀ r, qr = [r] →
        renderQueryResults qr
          = some (Visual.scalar (r.get? 0) (r.get? 1)))
    ∧ (1 < qr.length →
        renderQueryResults qr
          = some (Visual.chart (ChartView.mk ChartMode.bar
              (qr.map (fun row => (row.get? 0, row.get? 1)))))
        ∧ (transformedData qr).length = qr.length) := by
  refine ⟨?_, ?_, ?_⟩
  · rintro rfl; rfl
  · rintro r rfl; rfl
  · intro h
    have h1 : qr.length ≠ 1 := by omega
    have h0 : qr.length ≠ 0 := by omega
    exact ⟨by simp [renderQueryResults, DataVisualization, transformedData, h1, h0],
           by simp [transformedData]⟩

/-- Witness for C3 at the three concrete shapes: zero rows, one row, and
two rows. -/
theorem transform_dispatch_witness :
    renderQueryResults [] = none
    ∧ renderQueryResults [[Cell.str "avg_speed", Cell.num 42]]
        = some (Visual.scalar (some (Cell.str "avg_speed"))
            (some (Cell.num 42)))
    ∧ renderQueryResults
          [[Cell.str "Mon", Cell.num 3], [Cell.str "Tue", Cell.num 5]]
        = some (Visual.chart (ChartView.mk ChartMode.bar
            [(some (Cell.str "Mon"), some (Cell.num 3)),
             (some (Cell.str "Tue"), some (Cell.num 5))])) :=
  ⟨(transform_dispatch []).1 rfl,
   (transform_dispatch _).2.1 _ rfl,
   ((transform_dispatch _).2.2 (by decide)).1⟩

/-- C5: when the trimmed input is empty, a form submission changes nothing
at all — no user message is appended, no fetch is issued, the whole
component state is untouched. -/
theorem submit_blank_noop (t reqId : Nat) (s : SessionState)
    (h : jsTrim s.userInput = "") : handleSubmit t reqId s = s := by
  simp [handleSubmit, h]

/-- Witness for C5 at a whitespace-only input. -/
theorem submit_blank_noop_witness :
    jsTrim "   " = ""
    ∧ handleSubmit 3 1 { initialState with userInput := "   " }
        = { initialState with userInput := "   " } :=
  ⟨by decide, submit_blank_noop 3 1 _ (by decide)⟩

/-- C6: handed an `undefined` or empty dataset, `DataVisualization`
renders nothing under every chart mode (the function is total in the
embedding, so no exception is possible either). -/
theorem datavis_empty_none (d : Option (List (List Cell))) (m : ChartMode)
    (h : d = none ∨ d = some []) : DataVisualization d m = none := by
  rcases h with rfl | rfl <;> rfl

/-- Witness for C6 at the `undefined` and empty datasets. -/
theorem datavis_empty_none_witness :
    DataVisualization none ChartMode.pie = none
    ∧ DataVisualization (some []) ChartMode.line = none :=
  ⟨datavis_empty_none none ChartMode.pie (Or.inl rfl),
   datavis_empty_none (some []) ChartMode.line (Or.inr rfl)⟩

/-- C7: for every dataset and every sequence of chart-mode button clicks
(in any order and repetition), the points of the rendered view after the
clicks equal the points rendered initially — mode selection changes
nothing but the selected mode, never the transformed data. -/
theorem chartmode_independence (data : Option (List (List Cell)))
    (clicks : List ChartMode) :
    (DataVisualization data
        (applySelections dvInit clicks).chartType).map ChartView.points
      = (DataVisualization data dvInit.chartType).map ChartView.points := by
  cases data with
  | none => rfl
  | some d =>
    by_cases h : d.length = 0 <;> simp [DataVisualization, h]


theorem callBackendAPIResolve_mem (t reqId : Nat) (o : FetchOutcome)
    (s : SessionState)
    (hmem : (s.pending.map Prod.fst).contains reqId = true) :
    callBackendAPIResolve t reqId o s
      = { resolveBody t o
            { s with pending := s.pending.filter (fun p => !(p.1 = reqId)) }
          with isLoading := false, userInput := "" } := by
  unfold callBackendAPIResolve
  rw [if_pos hmem]

/-- C1 counterexample: a resolved backend call (ok status, parsed body
with `query_results` but no `nl_explanation`) appends ZERO system
messages — the request is no longer pending, the user message is in the
log, yet no system message ever arrives, refuting "no resolution path
appends zero or more than one system message". -/
theorem resolution_zero_system_messages :
    countRole Role.user
        (runTrace traceNoExplanation initialState).chatHistory = 1
    ∧ countRole Role.system
        (runTrace traceNoExplanation initialState).chatHistory = 0
    ∧ (runTrace traceNoExplanation initialState).pending = []
    ∧ ¬ (jsTrim "q" = "") := by decide

/-- C1 amended: an accepted submission appends exactly one user message
and no system message; a settlement of an in-flight request appends
exactly one system message when the call failed, exactly one when it
succeeded with a truthy `nl_explanation`, and NONE when it succeeded
without one; settlements append no user message. -/
theorem resolution_message_counts (s : SessionState) (t reqId : Nat)
    (o : FetchOutcome)
    (hsub : ¬ (jsTrim s.userInput = ""))
    (hmem : (s.pending.map Prod.fst).contains reqId = true) :
    countRole Role.user (handleSubmit t reqId s).chatHistory
        = countRole Role.user s.chatHistory + 1
    ∧ countRole Role.system (handleSubmit t reqId s).chatHistory
        = countRole Role.system s.chatHistory
    ∧ countRole Role.system (callBackendAPIResolve t reqId o s).chatHistory
        = countRole Role.system s.chatHistory
            + (match o with
               | FetchOutcome.success data =>
                   if strTruthy data.nl_explanation then 1 else 0
               | FetchOutcome.failure => 1)
    ∧ countRole Role.user (callBackendAPIResolve t reqId o s).chatHistory
        = countRole Role.user s.chatHistory := by
  refine ⟨?_, ?_, ?_, ?_⟩
  · simp [handleSubmit, hsub, countRole_append, countRole]
  · simp [handleSubmit, hsub, countRole_append, countRole]
  · rw [callBackendAPIResolve_mem t reqId o s hmem]
    cases o with
    | success data =>
      cases hb : strTruthy data.nl_explanation
      · simp [resolveBody, hb]
      · simp [resolveBody, hb, countRole_append, countRole]
    | failure =>
      simp [resolveBody, countRole_append, countRole]
  · rw [callBackendAPIResolve_mem t reqId o s hmem]
    cases o with
    | success data =>
      cases hb : strTruthy data.nl_explanation
      · simp [resolveBody, hb]
      · simp [resolveBody, hb, countRole_append, countRole]
    | failure =>
      simp [resolveBody, countRole_append, countRole]

/-- Witness for the amended C1 at a concrete mid-flight state and a
failure settlement. -/
theorem resolution_message_counts_witness :
    ¬ (jsTrim sampleBusy.userInput = "")
    ∧ (sampleBusy.pending.map Prod.fst).contains 1 = true
    ∧ countRole Role.system
          (callBackendAPIResolve 7 1 FetchOutcome.failure
            sampleBusy).chatHistory
        = countRole Role.system sampleBusy.chatHistory + 1 :=
  ⟨by decide, by decide,
   (resolution_message_counts sampleBusy 7 1 FetchOutcome.failure
     (by decide) (by decide)).2.2.1⟩

/-- C2 counterexample: the backend completes with a success status and a
body carrying the non-empty `error` field `"boom"`, yet the appended
system message is the normal result message (content `"exp"`, the full
response attached) — not the failure message. -/
theorem error_field_not_failure :
    (runTrace traceErrorField initialState).chatHistory.map
        ChatMessage.content = ["q", "exp"]
    ∧ ¬ ((runTrace traceErrorField initialState).chatHistory.map
          ChatMessage.content = ["q", errorText])
    ∧ ((runTrace traceErrorField initialState).chatHistory.getD 1
          (ChatMessage.mk 0 Role.user "" none)).responseData
        = some dataWithError
    ∧ ¬ (dataWithError.error = none) := by decide

/-- C2 amended: the `error` field of a success-status response is ignored
by the controller — the appended message (or its absence) is determined
solely by `nl_explanation`: one normal result message carrying the full
response when `nl_explanation` is truthy, no system message otherwise;
the generic failure treatment is never applied to a success response. -/
theorem error_field_ignored (s : SessionState) (t reqId : Nat)
    (data : BackendResponse)
    (hmem : (s.pending.map Prod.fst).contains reqId = true) :
    (callBackendAPIResolve t reqId (FetchOutcome.success data) s).chatHistory
      = s.chatHistory ++
          (if strTruthy data.nl_explanation then
            [ChatMessage.mk (t + 1) Role.system
               (data.nl_explanation.getD "") (some data)]
           else []) := by
  rw [callBackendAPIResolve_mem t reqId (FetchOutcome.success data) s hmem]
  cases hb : strTruthy data.nl_explanation
  · simp [resolveBody, hb]
  · simp [resolveBody, hb]

/-- Witness for the amended C2: a success response carrying `error` field
`"boom"` still yields the normal result message. -/
theorem error_field_ignored_witness :
    (sampleBusy.pending.map Prod.fst).contains 1 = true
    ∧ (callBackendAPIResolve 7 1 (FetchOutcome.success dataWithError)
          sampleBusy).chatHistory
        = sampleBusy.chatHistory ++
            [ChatMessage.mk 8 Role.system "exp" (some dataWithError)] :=
  ⟨by decide, error_field_ignored sampleBusy 7 1 dataWithError (by decide)⟩

/-- C4 counterexample: a submission made while another is pending is
neither queued nor rejected — after the second submit both requests are
in flight — and when the second fetch settles first, the final log is
user "a", user "b", system "expB", system "expA": submission 2's system
message precedes submission 1's, so the two in-flight responses
interleave out of submission order. -/
theorem interleaved_responses :
    ((runTrace (traceInterleaved.take 4) initialState).pending.map
        Prod.fst) = [1, 2]
    ∧ (runTrace traceInterleaved initialState).chatHistory.map
        ChatMessage.content = ["a", "b", "expB", "expA"]
    ∧ (runTrace traceInterleaved initialState).chatHistory.map
        ChatMessage.type
        = [Role.user, Role.user, Role.system, Role.system] := by decide

/-- C4 amended: within a single uninterleaved cycle the user message
precedes that cycle's system message(s) in the final log, and every event
only appends to the log (the log is append-only, so messages land in
settlement order); but the controller does not serialize cycles — nothing
queues or rejects a submission made while one is pending. -/
theorem single_cycle_order (s : SessionState) (t1 t2 reqId : Nat)
    (o : FetchOutcome) (hsub : ¬ (jsTrim s.userInput = "")) :
    (∃ tail : List ChatMessage,
      (callBackendAPIResolve t2 reqId o
          (handleSubmit t1 reqId s)).chatHistory
        = s.chatHistory
            ++ (ChatMessage.mk t1 Role.user s.userInput none :: tail)
      ∧ ∀ m ∈ tail, m.type = Role.system)
    ∧ (∀ (e : Event) (s' : SessionState), ∃ suffix : List ChatMessage,
        (step e s').chatHistory = s'.chatHistory ++ suffix) := by
  constructor
  · have hmem : (((handleSubmit t1 reqId s).pending.map Prod.fst).contains
        reqId) = true := by
      simp [handleSubmit, hsub]
    rw [callBackendAPIResolve_mem t2 reqId o (handleSubmit t1 reqId s) hmem]
    cases o with
    | success data =>
      cases hb : strTruthy data.nl_explanation
      · refine ⟨[], ?_, ?_⟩
        · simp [resolveBody, hb, handleSubmit, hsub]
        · intro m hm
          simp at hm
      · refine ⟨[ChatMessage.mk (t2 + 1) Role.system
            (data.nl_explanation.getD "") (some data)], ?_, ?_⟩
        · simp [resolveBody, hb, handleSubmit, hsub]
        · intro m hm
          simp at hm
          simp [hm]
    | failure =>
      refine ⟨[ChatMessage.mk t2 Role.system errorText none], ?_, ?_⟩
      · simp [resolveBody, handleSubmit, hsub]
      · intro m hm
        simp at hm
        simp [hm]
  · intro e s'
    cases e with
    | setInput v => exact ⟨[], by simp [step]⟩
    | submit t r =>
      by_cases h : jsTrim s'.userInput = ""
      · exact ⟨[], by simp [step, handleSubmit, h]⟩
      · exact ⟨[ChatMessage.mk t Role.user s'.userInput none],
          by simp [step, handleSubmit, h]⟩
    | resolve t r o =>
      cases hc : ((s'.pending.map Prod.fst).contains r)
      · refine ⟨[], ?_⟩
        show (callBackendAPIResolve t r o s').chatHistory = _
        unfold callBackendAPIResolve
        rw [if_neg]
        · simp
        · intro hcontra
          rw [hc] at hcontra
          exact Bool.false_ne_true hcontra
      · cases o with
        | success data =>
          cases hb : strTruthy data.nl_explanation
          · refine ⟨[], ?_⟩
            show (callBackendAPIResolve t r
              (FetchOutcome.success data) s').chatHistory = _
            rw [callBackendAPIResolve_mem t r
              (FetchOutcome.success data) s' hc]
            simp [resolveBody, hb]
          · refine ⟨[ChatMessage.mk (t + 1) Role.system
                (data.nl_explanation.getD "") (some data)], ?_⟩
            show (callBackendAPIResolve t r
              (FetchOutcome.success data) s').chatHistory = _
            rw [callBackendAPIResolve_mem t r
              (FetchOutcome.success data) s' hc]
            simp [resolveBody, hb]
        | failure =>
          refine ⟨[ChatMessage.mk t Role.system errorText none], ?_⟩
          show (callBackendAPIResolve t r FetchOutcome.failure s').chatHistory
            = _
          rw [callBackendAPIResolve_mem t r FetchOutcome.failure s' hc]
          simp [resolveBody]

/-- Witness for the amended C4 at a concrete single cycle ending in
failure. -/
theorem single_cycle_order_witness :
    ¬ (jsTrim ({ initialState with userInput := "go" } :
        SessionState).userInput = "")
    ∧ (∃ tail : List ChatMessage,
        (callBackendAPIResolve 9 3 FetchOutcome.failure
            (handleSubmit 4 3
              { initialState with userInput := "go" })).chatHistory
          = ({ initialState with userInput := "go" } :
              SessionState).chatHistory
              ++ (ChatMessage.mk 4 Role.user "go" none :: tail)
        ∧ ∀ m ∈ tail, m.type = Role.system) :=
  ⟨by decide,
   (single_cycle_order { initialState with userInput := "go" } 4 9 3
     FetchOutcome.failure (by decide)).1⟩

/-- C8: with every `Date.now()` reading inside one millisecond (all equal
to 5), the code assigns ids 5, 6, 5, 5 to the four appended messages —
the third id is smaller than the second and equal to the fourth, so ids
are not strictly increasing in append order. -/
theorem ids_not_strictly_increasing :
    (runTrace traceSameMillisecond initialState).chatHistory.map
        ChatMessage.id = [5, 6, 5, 5]
    ∧ strictlyIncreasing
        ((runTrace traceSameMillisecond initialState).chatHistory.map
          ChatMessage.id) = false := by decide

/-- C9 counterexample: submitting `" hi "` appends a user message whose
content is the RAW string `" hi "`, not the trimmed `"hi"`, and the fetch
is issued with the raw string — the claim's trimmed-content half fails. -/
theorem user_message_not_trimmed :
    (runTrace traceUntrimmed initialState).chatHistory.map
        ChatMessage.content = [" hi "]
    ∧ jsTrim " hi " = "hi"
    ∧ ¬ ((runTrace traceUntrimmed initialState).chatHistory.map
          ChatMessage.content = ["hi"])
    ∧ (runTrace traceUntrimmed initialState).pending = [(1, " hi ")] := by
  decide

/-- C9 amended: for every accepted submission, BOTH the appended user
message's content and the issued backend call carry the raw untrimmed
input; trimming is used only for the emptiness guard. -/
theorem submit_raw_input (t reqId : Nat) (s : SessionState)
    (h : ¬ (jsTrim s.userInput = "")) :
    (handleSubmit t reqId s).chatHistory
      = s.chatHistory ++ [ChatMessage.mk t Role.user s.userInput none]
    ∧ (handleSubmit t reqId s).pending
      = s.pending ++ [(reqId, s.userInput)] := by
  constructor <;> simp [handleSubmit, h]

/-- Witness for the amended C9 at the input `" hi "`. -/
theorem submit_raw_input_witness :
    ¬ (jsTrim ({ initialState with userInput := " hi " } :
        SessionState).userInput = "")
    ∧ (handleSubmit 0 1
          { initialState with userInput := " hi " }).chatHistory
        = ({ initialState with userInput := " hi " } :
            SessionState).chatHistory
            ++ [ChatMessage.mk 0 Role.user " hi " none] :=
  ⟨by decide,
   (submit_raw_input 0 1 { initialState with userInput := " hi " }
     (by decide)).1⟩

/-- C10: a failure settlement appends a system message with no attached
response data, and the per-message render branch produces no visual for
it — a failure message never shows a chart or a scalar, only the generic
error text. -/
theorem failure_message_no_visual (s : SessionState) (t reqId : Nat)
    (hmem : (s.pending.map Prod.fst).contains reqId = true) :
    (callBackendAPIResolve t reqId FetchOutcome.failure s).chatHistory
      = s.chatHistory ++ [ChatMessage.mk t Role.system errorText none]
    ∧ (ChatMessage.mk t Role.system errorText none).responseData = none
    ∧ messageVisual (ChatMessage.mk t Role.system errorText none) = none := by
  refine ⟨?_, rfl, rfl⟩
  rw [callBackendAPIResolve_mem t reqId FetchOutcome.failure s hmem]
  simp [resolveBody]

/-- Witness for C10 at a concrete mid-flight state. -/
theorem failure_message_no_visual_witness :
    (sampleBusy.pending.map Prod.fst).contains 1 = true
    ∧ messageVisual (ChatMessage.mk 7 Role.system errorText none) = none :=
  ⟨by decide,
   (failure_message_no_visual sampleBusy 7 1 (by decide)).2.2⟩
